import Mathlib

/-!
Verification of the persona-configuration module and request gateway of the
FitnessApp AI coach service.

The embedding mirrors the two source files:
- `src/WorkoutTracker/src/services/ai/config/personalities.py`
  (`PersonaConfig`, `PersonalitySystem._initialize_personas`,
  `PersonalitySystem.get_persona_config`, `PersonalitySystem.get_system_prompt_addon`);
- `src/WorkoutTracker/src/services/ai/main.py`
  (the `/chat`, `/readiness` and voice endpoints, Pydantic request validation,
  the orchestrator boundary with its try/except translation to HTTP 500).

Python dicts keyed by strings become association lists `List (String × _)`;
a Python exception boundary becomes `Except String`; the external orchestrator
(whose code is not part of the repository) is a parameter of the handler
functions; each handler additionally reports how many times it invoked the
orchestrator, which is literal in the code (exactly one unconditional call per
handler body, no retry loop).
-/

/-- The `PersonaConfig` dataclass of `personalities.py` (lines 9-22): one
field per dataclass field, in source order.  `vocabulary` and `avoid_phrases`
are lists of strings in the source data. -/
structure PersonaConfig where
  name : String
  tone : String
  vocabulary : List String
  avoid_phrases : List String
  emoji_usage : String
  response_length : String
  motivation_style : String
  sentence_structure : String
  accent_color : String
  avatar_url : String
  system_prompt_addon : String
  deriving Repr, DecidableEq, BEq

/-- The `"calm"` entry of `_initialize_personas` (lines 34-62). -/
def calmConfig : PersonaConfig where
  name := "Zen Coach"
  tone := "Measured, patient, mindful, never exclamatory"
  vocabulary := ["Let's", "Consider", "Notice", "Observe", "Gently", "Breathe", "Flow", "Practice", "Honor", "Mindfully"]
  avoid_phrases := ["Pumped!", "Crush it!", "Beast mode", "No pain no gain", "Push through", "Destroy", "Dominate"]
  emoji_usage := "Minimal, peaceful (🧘‍♂️ 🌊 ☮️ 🍃)"
  response_length := "Medium to long, thoughtful"
  motivation_style := "Intrinsic, mindfulness-based, process-oriented"
  sentence_structure := "Longer, flowing sentences with pauses"
  accent_color := "#7C9FB0"
  avatar_url := "/avatars/calm-coach.png"
  system_prompt_addon := "
                CRITICAL - PERSONALITY & COMMUNICATION STYLE:
                You embody the \"Calm\" personality in EVERY interaction.

                Tone: Measured, patient, mindful. Never use exclamation marks excessively.

                Language Guidelines:
                - USE these words: Let's, Consider, Notice, Observe, Gently, Breathe, Flow, Practice, Honor
                - NEVER use: Pumped!, Crush it!, Beast mode, No pain no gain, aggressive language
                - Response length: Medium to long, thoughtful and complete
                - Motivation approach: Focus on mindfulness, process over outcome, inner peace
                - Emoji usage: Minimal, only peaceful ones (🧘‍♂️ 🌊 ☮️ 🍃)

                Example response style:
                \"Notice how your body responds to this movement. Let's honor your recovery needs today.
                This is a practice, not a performance. Breathe deeply and move with intention.\"
                "

/-- The `"motivational"` entry of `_initialize_personas` (lines 64-92). -/
def motivationalConfig : PersonaConfig where
  name := "Hype Coach"
  tone := "Energetic, enthusiastic, pump-up, competitive"
  vocabulary := ["Crush", "Destroy", "Beast", "Champion", "Dominate", "Warrior", "Victory", "Power", "Unstoppable", "Fire"]
  avoid_phrases := ["Maybe", "Perhaps", "Consider", "If you want", "Gently", "Slowly", "Rest too much"]
  emoji_usage := "Frequent, high-energy (💪 🔥 ⚡ 💥 🏆)"
  response_length := "Short to medium, punchy"
  motivation_style := "Extrinsic, competitive, intensity-driven"
  sentence_structure := "Short, impactful, exclamatory"
  accent_color := "#FF4500"
  avatar_url := "/avatars/hype-coach.png"
  system_prompt_addon := "
                CRITICAL - PERSONALITY & COMMUNICATION STYLE:
                You embody the \"Motivational\" personality in EVERY interaction.

                Tone: Energetic, enthusiastic, pump-up energy! Use exclamation marks frequently!

                Language Guidelines:
                - USE these words: Crush, Destroy, Beast, Champion, Dominate, Warrior, Victory, Power
                - NEVER use: Maybe, Perhaps, Consider, Gently, passive language
                - Response length: Short to medium, punchy and direct!
                - Motivation approach: Competitive, high-intensity, achievement-focused!
                - Emoji usage: Frequent! (💪 🔥 ⚡ 💥 🏆)

                Example response style:
                \"Time to DOMINATE this workout! You're a MACHINE! Champions are built in moments
                like this! Let's CRUSH IT! 💪🔥\"
                "

/-- The `"gentle"` entry of `_initialize_personas` (lines 94-122). -/
def gentleConfig : PersonaConfig where
  name := "Supportive Coach"
  tone := "Warm, encouraging, compassionate, nurturing"
  vocabulary := ["Proud of you", "You've got this", "At your own pace", "Small wins", "Be kind to yourself", "Great job", "Wonderful", "It's okay"]
  avoid_phrases := ["Push harder", "No excuses", "Toughen up", "Weak", "Lazy", "Failure", "Not good enough"]
  emoji_usage := "Warm, supportive (❤️ 🌟 ✨ 🤗 🌈)"
  response_length := "Medium, reassuring"
  motivation_style := "Self-compassion, progress over perfection, celebrate small wins"
  sentence_structure := "Supportive, uses 'we' often, validating"
  accent_color := "#FFB6C1"
  avatar_url := "/avatars/gentle-coach.png"
  system_prompt_addon := "
                CRITICAL - PERSONALITY & COMMUNICATION STYLE:
                You embody the \"Gentle\" personality in EVERY interaction.

                Tone: Warm, encouraging, compassionate, nurturing

                Language Guidelines:
                - USE these words: Proud of you, You've got this, At your own pace, Small wins, Be kind to yourself
                - NEVER use: Push harder, No excuses, Toughen up, harsh or critical language
                - Response length: Medium, reassuring and supportive
                - Motivation approach: Self-compassion, progress over perfection, celebrating every step
                - Emoji usage: Warm and supportive (❤️ 🌟 ✨ 🤗 🌈)

                Example response style:
                \"I'm so proud of you for showing up today ❤️ Every step forward counts, no matter
                how small. You're doing wonderfully, and it's okay to rest when you need to.\"
                "

/-- The `"concise"` entry of `_initialize_personas` (lines 124-151). -/
def conciseConfig : PersonaConfig where
  name := "Tactical Coach"
  tone := "Direct, efficient, no-nonsense, factual"
  vocabulary := ["Do", "Complete", "Execute", "Results", "Data", "Metrics", "Target", "Achieve", "Optimize"]
  avoid_phrases := ["Let me explain in detail", "Here's a story", "Feel into", "Journey", "Long explanations"]
  emoji_usage := "None or rare task-focused (✓ → • ▸)"
  response_length := "Short, bullet points preferred"
  motivation_style := "Results-driven, data-focused, action-oriented"
  sentence_structure := "Short, direct, often fragments"
  accent_color := "#36454F"
  avatar_url := "/avatars/tactical-coach.png"
  system_prompt_addon := "
                CRITICAL - PERSONALITY & COMMUNICATION STYLE:
                You embody the \"Concise\" personality in EVERY interaction.

                Tone: Direct, efficient, no-nonsense, factual

                Language Guidelines:
                - USE these words: Do, Complete, Execute, Results, Data, Metrics, Target
                - NEVER use: Long explanations, stories, emotional language, unnecessary details
                - Response length: SHORT. Use bullet points when possible.
                - Motivation approach: Results-driven, data-focused, action-oriented
                - Emoji usage: None or minimal (✓ → •)

                Example response style:
                \"Readiness: 72/100. Reduce intensity 15%. Target: 4x8. Execute. ✓\"
                "

/-- `PersonalitySystem._initialize_personas` (lines 30-152): builds the
persona dictionary literal.  The Python method takes no arguments and returns
a fresh dict literal on every call; the `Unit` argument stands for one
invocation. -/
def _initialize_personas (_ : Unit) : List (String × PersonaConfig) :=
  [("calm", calmConfig),
   ("motivational", motivationalConfig),
   ("gentle", gentleConfig),
   ("concise", conciseConfig)]

/-- `self.personas`, assigned once in `PersonalitySystem.__init__`
(lines 27-28). -/
def personas : List (String × PersonaConfig) := _initialize_personas ()

/-- `PersonalitySystem.get_persona_config` (lines 154-159): two-branch
lookup.  `if persona_name not in self.personas: return self.personas["calm"]`
is the `none` branch; `self.personas["calm"]` is `calmConfig` (see
`lookup_calm` below), and the function is total, so no lookup ever raises. -/
def get_persona_config (persona_name : String) : PersonaConfig :=
  match personas.lookup persona_name with
  | some config => config
  | none => calmConfig

/-- `PersonalitySystem.get_system_prompt_addon` (lines 161-164). -/
def get_system_prompt_addon (persona_name : String) : String :=
  (get_persona_config persona_name).system_prompt_addon

/-- The persona identifier of a configuration: the registry key under which
that configuration is stored (spec §3 calls this key the configuration's
`id`; the dataclass itself carries no separate id field, the dict key plays
that role). -/
def persona_id (config : PersonaConfig) : Option String :=
  (personas.find? (fun kv => kv.2 == config)).map (fun kv => kv.1)

/-- All eleven fields of a configuration are non-empty (strings non-empty,
the two lists non-empty). -/
def fieldsNonEmpty (c : PersonaConfig) : Bool :=
  !c.name.isEmpty && !c.tone.isEmpty &&
  !c.vocabulary.isEmpty && !c.avoid_phrases.isEmpty &&
  !c.emoji_usage.isEmpty && !c.response_length.isEmpty &&
  !c.motivation_style.isEmpty && !c.sentence_structure.isEmpty &&
  !c.accent_color.isEmpty && !c.avatar_url.isEmpty &&
  !c.system_prompt_addon.isEmpty

theorem lookup_calm : personas.lookup "calm" = some calmConfig := rfl

theorem lookup_none_of_ne (p : String) (h1 : p ≠ "calm")
    (h2 : p ≠ "motivational") (h3 : p ≠ "gentle") (h4 : p ≠ "concise") :
    personas.lookup p = Option.none := by
  have b1 : (p == "calm") = false := by simp [h1]
  have b2 : (p == "motivational") = false := by simp [h2]
  have b3 : (p == "gentle") = false := by simp [h3]
  have b4 : (p == "concise") = false := by simp [h4]
  simp [personas, _initialize_personas, List.lookup, b1, b2, b3, b4]

theorem lookup_none_of_not_mem (p : String)
    (h : p ∉ personas.map Prod.fst) : personas.lookup p = Option.none := by
  simp [personas, _initialize_personas] at h
  exact lookup_none_of_ne p h.1 h.2.1 h.2.2.1 h.2.2.2

/-- A Python value, for the `Any`-typed payloads (`context`, `actions`,
`references`, the readiness numbers) that the gateway forwards without
inspecting them. -/
inductive PyVal where
  | pyNone : PyVal
  | pyBool : Bool → PyVal
  | pyInt : Int → PyVal
  | pyStr : String → PyVal
  | pyList : List PyVal → PyVal
  | pyMap : List (String × PyVal) → PyVal

/-- A Python `Dict[str, Any]`. -/
abbrev PyDict := List (String × PyVal)

/-- The `ChatRequest` Pydantic model of `main.py` (lines 52-57), after
validation: `message` and `user_id` are required strings, `conversation_id`
and `context` optional, `persona` defaulted.  Pydantic places no constraint
on the strings beyond their presence, so empty strings validate. -/
structure ChatRequest where
  message : String
  user_id : String
  conversation_id : Option String
  persona : String
  context : Option PyDict

/-- The `ChatResponse` model (lines 59-65). -/
structure ChatResponse where
  response : String
  agent_id : String
  conversation_id : String
  intent : String
  actions : Option (List PyDict)
  references : Option PyDict

/-- An HTTP error as raised by `HTTPException(status_code=..., detail=...)`. -/
structure HTTPError where
  status_code : Nat
  detail : String

/-- The argument record of `orchestrator.process_message` (lines 106-112). -/
structure OrchCall where
  user_id : String
  message : String
  conversation_id : Option String
  persona_config : PersonaConfig
  context : Option PyDict

/-- The dict returned by `orchestrator.process_message`, with the keys the
handler reads: `result["response"]`, `result["agent_id"]`,
`result["conversation_id"]`, `result["intent"]` required and
`result.get("actions")`, `result.get("references")` optional. -/
structure OrchResult where
  response : String
  agent_id : String
  conversation_id : String
  intent : String
  actions : Option (List PyDict)
  references : Option PyDict

/-- The external orchestrator's `process_message`, a parameter of the
gateway: its code is not in the repository.  `Except.error e` models any
Python exception whose `str(e)` is `e`. -/
abbrev Orchestrator := OrchCall → Except String OrchResult

/-- The exact argument record the `chat` handler passes to
`orchestrator.process_message` (lines 103-112): the request fields plus the
resolved persona configuration. -/
def orchCallOf (request : ChatRequest) : OrchCall :=
  ⟨request.user_id, request.message, request.conversation_id,
   get_persona_config request.persona, request.context⟩

/-- The body of the `chat` handler (lines 95-127) on a validated request.
The second component counts orchestrator invocations: the source makes
exactly one unconditional `await orchestrator.process_message(...)` call,
with no retry; `except Exception as e: raise HTTPException(500, str(e))` is
the `Except.error` branch. -/
def chat (orch : Orchestrator) (request : ChatRequest) :
    Except HTTPError ChatResponse × Nat :=
  match orch (orchCallOf request) with
  | Except.ok result =>
      (Except.ok ⟨result.response, result.agent_id, result.conversation_id,
        result.intent, result.actions, result.references⟩, 1)
  | Except.error e => (Except.error ⟨500, e⟩, 1)

/-- A chat request body before Pydantic validation: each field present or
absent. -/
structure RawChatRequest where
  message : Option String
  user_id : Option String
  conversation_id : Option String
  persona : Option String
  context : Option PyDict

/-- The client error FastAPI returns when a required field is absent. -/
def validationError : HTTPError := ⟨422, "Field required"⟩

/-- Pydantic validation of `ChatRequest` (lines 52-57): fails exactly when a
required field (`message`, `user_id`) is absent; an absent `persona` takes
the default `"calm"`.  Values, including empty strings, are not inspected. -/
def parseChatRequest (raw : RawChatRequest) : Option ChatRequest :=
  match raw.message, raw.user_id with
  | some m, some u =>
      some ⟨m, u, raw.conversation_id, raw.persona.getD "calm", raw.context⟩
  | _, _ => Option.none

/-- The `/chat` endpoint: FastAPI validates the body, rejecting with a 422
before the handler (and hence the orchestrator) runs; on success it runs
`chat`.  The second component again counts orchestrator invocations. -/
def handle_chat (orch : Orchestrator) (raw : RawChatRequest) :
    Except HTTPError ChatResponse × Nat :=
  match parseChatRequest raw with
  | some request => chat orch request
  | Option.none => (Except.error validationError, 0)

/-- The `ReadinessRequest` model (lines 67-69). -/
structure ReadinessRequest where
  user_id : String
  date : Option String

/-- The `ReadinessResponse` model (lines 71-76).  `readiness_score` is a
float the gateway never computes with; all payloads are forwarded opaque. -/
structure ReadinessResponse where
  readiness_score : PyVal
  components : PyDict
  recommendations : PyDict
  adjustment : Option PyDict
  message : String

/-- The argument record of `orchestrator.calculate_readiness`
(lines 139-142). -/
structure ReadinessCall where
  user_id : String
  date : Option String

/-- The dict returned by `orchestrator.calculate_readiness`, with the keys
the handler reads (lines 144-150). -/
structure ReadinessResult where
  readiness_score : PyVal
  components : PyDict
  recommendations : PyDict
  adjustment : Option PyDict
  message : String

/-- The external orchestrator's `calculate_readiness`. -/
abbrev ReadinessOrchestrator := ReadinessCall → Except String ReadinessResult

/-- The argument record the readiness handler passes to the orchestrator. -/
def readinessCallOf (request : ReadinessRequest) : ReadinessCall :=
  ⟨request.user_id, request.date⟩

/-- The body of the `calculate_readiness` handler (lines 131-154): one
unconditional orchestrator call, the result mapped field by field, any
exception translated to `HTTPException(500, str(e))`. -/
def calculate_readiness (orch : ReadinessOrchestrator)
    (request : ReadinessRequest) : Except HTTPError ReadinessResponse × Nat :=
  match orch (readinessCallOf request) with
  | Except.ok result =>
      (Except.ok ⟨result.readiness_score, result.components,
        result.recommendations, result.adjustment, result.message⟩, 1)
  | Except.error e => (Except.error ⟨500, e⟩, 1)

/-- `transcribe_voice` (lines 182-188): ignores its payload and returns the
fixed placeholder dict. -/
def transcribe_voice (audio_data : List UInt8) : List (String × String) :=
  [("transcription", "Voice transcription not yet implemented")]

/-- `synthesize_voice` (lines 191-197): ignores both parameters (`persona`
defaults to `"calm"` in the source and is never resolved or validated) and
returns the fixed placeholder dict. -/
def synthesize_voice (text : String) (persona : String) :
    List (String × String) :=
  [("audio_url", "Voice synthesis not yet implemented")]

/-- C1: for every persona identifier that is not a key of the registry's
closed set (the empty string and malformed input included), resolving it
returns exactly the same PersonaConfig as resolving the default identifier
"calm"; the lookup is a total function and never raises. -/
theorem get_persona_config_fallback (p : String)
    (h : p ∉ personas.map Prod.fst) :
    get_persona_config p = get_persona_config "calm" := by
  unfold get_persona_config
  rw [lookup_none_of_not_mem p h, lookup_calm]

theorem get_persona_config_fallback_witness :
    "unknown_xyz" ∉ personas.map Prod.fst ∧
      get_persona_config "unknown_xyz" = get_persona_config "calm" :=
  ⟨by decide, get_persona_config_fallback "unknown_xyz" (by decide)⟩

set_option maxRecDepth 100000 in
/-- C2: for every known persona identifier P, the configuration returned by
resolving P is the one whose registry identifier is P (spec §3: the `id` is
the stable string key under which the configuration is stored), and every
field of that configuration is non-empty. -/
theorem get_persona_config_id_and_fields (p : String)
    (h : p ∈ personas.map Prod.fst) :
    persona_id (get_persona_config p) = some p ∧
      fieldsNonEmpty (get_persona_config p) = true := by
  simp [personas, _initialize_personas] at h
  rcases h with rfl | rfl | rfl | rfl
  · exact ⟨by decide, by decide⟩
  · exact ⟨by decide, by decide⟩
  · exact ⟨by decide, by decide⟩
  · exact ⟨by decide, by decide⟩

set_option maxRecDepth 100000 in
theorem get_persona_config_id_and_fields_witness :
    "motivational" ∈ personas.map Prod.fst ∧
      (persona_id (get_persona_config "motivational") = some "motivational" ∧
        fieldsNonEmpty (get_persona_config "motivational") = true) :=
  ⟨by decide, get_persona_config_id_and_fields "motivational" (by decide)⟩

/-- An orchestrator that always succeeds with a fixed result, for concrete
scenarios. -/
def okResult : OrchResult :=
  ⟨"ok", "coach", "c1", "general", Option.none, Option.none⟩

def constOrch : Orchestrator := fun _ => Except.ok okResult

/-- An orchestrator that always raises, for concrete scenarios. -/
def errOrch : Orchestrator := fun _ => Except.error "boom"

/-- A raw chat request whose `message` is present but empty. -/
def emptyMsgRaw : RawChatRequest :=
  ⟨some "", some "u1", Option.none, Option.none, Option.none⟩

/-- A well-formed raw chat request and its validated form. -/
def goodRaw : RawChatRequest :=
  ⟨some "hi", some "u1", Option.none, some "motivational", Option.none⟩

def goodReq : ChatRequest :=
  ⟨"hi", "u1", Option.none, "motivational", Option.none⟩

/-- C3, counterexample: a chat request whose `message` is present but empty
is not rejected — Pydantic validation accepts it, the orchestrator is
invoked (invocation count 1) and the request succeeds, contradicting the
claim that an empty `message` is rejected before any orchestrator call. -/
theorem chat_empty_message_not_rejected :
    emptyMsgRaw.message = some "" ∧
      (handle_chat constOrch emptyMsgRaw).2 = 1 ∧
      (handle_chat constOrch emptyMsgRaw).1 =
        Except.ok ⟨"ok", "coach", "c1", "general", Option.none, Option.none⟩ :=
  ⟨rfl, rfl, rfl⟩

/-- C3, amended: for every chat request in which `message` or `user_id` is
absent, validation rejects the request with a client error (422) before the
handler runs, and the orchestrator is never invoked (invocation count 0);
present-but-empty strings, however, pass validation. -/
theorem chat_missing_field_rejected (orch : Orchestrator)
    (m u cid per : Option String) (ctx : Option PyDict)
    (h : m = Option.none ∨ u = Option.none) :
    handle_chat orch ⟨m, u, cid, per, ctx⟩ = (Except.error validationError, 0) := by
  rcases h with rfl | rfl
  · cases u <;> rfl
  · cases m <;> rfl

theorem chat_missing_field_rejected_witness :
    ((Option.none : Option String) = Option.none ∨
        (some "u1" : Option String) = Option.none) ∧
      handle_chat constOrch
          ⟨Option.none, some "u1", Option.none, Option.none, Option.none⟩ =
        (Except.error validationError, 0) :=
  ⟨Or.inl rfl,
    chat_missing_field_rejected constOrch Option.none (some "u1") Option.none
      Option.none Option.none (Or.inl rfl)⟩

/-- C4: whenever the delegated orchestrator call raises (for chat or for
readiness), the gateway catches it at the boundary and returns a single
HTTP 500 whose detail is the underlying error message; no partial response
is returned, and the orchestrator was invoked exactly once (no retry). -/
theorem orchestrator_error_surfaced (orchC : Orchestrator)
    (orchR : ReadinessOrchestrator) (raw : RawChatRequest) (req : ChatRequest)
    (rreq : ReadinessRequest) (e e2 : String)
    (hp : parseChatRequest raw = some req)
    (he : orchC (orchCallOf req) = Except.error e)
    (hr : orchR (readinessCallOf rreq) = Except.error e2) :
    handle_chat orchC raw = (Except.error ⟨500, e⟩, 1) ∧
      calculate_readiness orchR rreq = (Except.error ⟨500, e2⟩, 1) := by
  constructor
  · simp [handle_chat, chat, hp, he]
  · simp [calculate_readiness, hr]

def errReadinessOrch : ReadinessOrchestrator := fun _ => Except.error "db down"

theorem orchestrator_error_surfaced_witness :
    (parseChatRequest goodRaw = some goodReq ∧
        errOrch (orchCallOf goodReq) = Except.error "boom" ∧
        errReadinessOrch (readinessCallOf ⟨"u1", Option.none⟩) =
          Except.error "db down") ∧
      handle_chat errOrch goodRaw = (Except.error ⟨500, "boom"⟩, 1) ∧
      calculate_readiness errReadinessOrch ⟨"u1", Option.none⟩ =
        (Except.error ⟨500, "db down"⟩, 1) :=
  ⟨⟨rfl, rfl, rfl⟩,
    orchestrator_error_surfaced errOrch errReadinessOrch goodRaw goodReq
      ⟨"u1", Option.none⟩ "boom" "db down" rfl rfl rfl⟩

/-- C5: on a successful chat request, the response the gateway returns
carries the orchestrator result's `response`, `agent_id`, `conversation_id`,
`intent`, and the optional `actions` and `references`, each unchanged — the
gateway adds, removes and alters nothing (and the orchestrator ran once). -/
theorem chat_success_passthrough (orch : Orchestrator) (raw : RawChatRequest)
    (req : ChatRequest) (result : OrchResult)
    (hp : parseChatRequest raw = some req)
    (hr : orch (orchCallOf req) = Except.ok result) :
    handle_chat orch raw =
      (Except.ok ⟨result.response, result.agent_id, result.conversation_id,
        result.intent, result.actions, result.references⟩, 1) := by
  simp [handle_chat, chat, hp, hr]

theorem chat_success_passthrough_witness :
    (parseChatRequest goodRaw = some goodReq ∧
        constOrch (orchCallOf goodReq) = Except.ok okResult) ∧
      handle_chat constOrch goodRaw =
        (Except.ok ⟨"ok", "coach", "c1", "general", Option.none, Option.none⟩, 1) :=
  ⟨⟨rfl, rfl⟩,
    chat_success_passthrough constOrch goodRaw goodReq okResult rfl rfl⟩

/-- C6: both voice operations, on every payload, return their fixed
well-formed "not implemented" placeholder dict and, being total functions,
never raise. -/
theorem voice_endpoints_placeholder (audio_data : List UInt8)
    (text persona : String) :
    transcribe_voice audio_data =
        [("transcription", "Voice transcription not yet implemented")] ∧
      synthesize_voice text persona =
        [("audio_url", "Voice synthesis not yet implemented")] :=
  ⟨rfl, rfl⟩

/-- C7: for every persona identifier, known or unknown, the prompt-fragment
operation returns exactly the `system_prompt_addon` field of the
configuration that resolving the same identifier returns. -/
theorem prompt_addon_eq_resolved_config (p : String) :
    get_system_prompt_addon p = (get_persona_config p).system_prompt_addon :=
  rfl

/-- C8: registry initialization is idempotent and deterministic — any two
invocations of `_initialize_personas` produce the identical
identifier-to-PersonaConfig mapping, every field value equal. -/
theorem initialize_personas_deterministic (u v : Unit) :
    _initialize_personas u = _initialize_personas v := rfl

/-- C9: the registry's closed key set is exactly "calm", "motivational",
"gentle", "concise", and every lookup — for any string whatsoever — returns
one of the four registered configurations, so no fifth distinct
configuration is ever produced. -/
theorem registry_closed_set :
    personas.map Prod.fst = ["calm", "motivational", "gentle", "concise"] ∧
      ∀ p : String,
        get_persona_config p = calmConfig ∨
          get_persona_config p = motivationalConfig ∨
          get_persona_config p = gentleConfig ∨
          get_persona_config p = conciseConfig := by
  refine ⟨rfl, fun p => ?_⟩
  by_cases h1 : p = "calm"
  · subst h1; left; rfl
  by_cases h2 : p = "motivational"
  · subst h2; right; left; rfl
  by_cases h3 : p = "gentle"
  · subst h3; right; right; left; rfl
  by_cases h4 : p = "concise"
  · subst h4; right; right; right; rfl
  · left
    unfold get_persona_config
    rw [lookup_none_of_ne p h1 h2 h3 h4]

/-- C10: the voice-synthesis operation's result is independent of both of
its inputs — any two invocations, whatever `text` and `persona` are (the
persona is never resolved or validated), return equal payloads, namely the
constant placeholder dict. -/
theorem synthesize_voice_input_independent (t1 p1 t2 p2 : String) :
    synthesize_voice t1 p1 = synthesize_voice t2 p2 ∧
      synthesize_voice t1 p1 =
        [("audio_url", "Voice synthesis not yet implemented")] :=
  ⟨rfl, rfl⟩
